import Mathlib

/-!
Verification of the streaming SQL export pipeline in
`src/run_sql_connectorx/server.py`: the ConnectorX batch source
(`_iter_record_batches`), the CSV writer (`_write_csv_batches`), the Parquet
writer (`_write_parquet_batches`), the shared error handler
(`_handle_connectorx_error`) and the orchestration inside `handle_call_tool`.

The embedding is shallow: Python values that reach the writers are modelled at
the point where their behaviour matters (a cell is the final text csv.writer
renders, a schema is the ordered list of pyarrow fields), the lazy generator
pipeline is modelled by the list of batches the source yields followed by the
error it raises afterwards (if any), and the filesystem is modelled by the
state of the one destination file the tool owns.
-/

namespace RunSqlCx

/-- A CSV cell as csv.writer finally renders it: `none` models Python `None`
(a SQL NULL, rendered as an empty field), `some s` any other value after
Python `str` conversion. -/
abbrev Cell := Option String

/-- One field of a result schema: (column name, column type), as in a pyarrow
schema field. -/
abbrev Col := String × String

/-- Models `pyarrow.RecordBatch`: an ordered schema and the rows of the chunk
(each row lists the cells in column order, as built at server.py line 90). -/
structure RecordBatch where
  schema : List Col
  rows : List (List Cell)
  deriving DecidableEq

/-- Models `pyarrow.Table` (same shape; distinguished from RecordBatch by the
isinstance checks at server.py lines 214-216). -/
structure Table where
  schema : List Col
  rows : List (List Cell)
  deriving DecidableEq

/-- Whether csv.writer (QUOTE_MINIMAL) must quote a field: it contains the
delimiter, the quote character, or a line-terminator character. -/
def needsQuoting (s : String) : Bool :=
  s.data.any fun c => c == ',' || c == '"' || c == '\r' || c == '\n'

/-- Double every embedded quote character, as csv.writer does inside a quoted
field. -/
def escapeQuotes (s : String) : String :=
  String.mk (s.data.foldr (fun c acc => if c == '"' then '"' :: '"' :: acc else c :: acc) [])

/-- Render one cell as a CSV field. -/
def csvField (c : Cell) : String :=
  match c with
  | none => ""
  | some s => if needsQuoting s then "\"" ++ escapeQuotes s ++ "\"" else s

/-- One formatted CSV line (without the trailing `\r\n` terminator), as
csv.writer writerow produces from a list of values. -/
def csvLine (cells : List Cell) : String :=
  String.intercalate "," (cells.map csvField)

/-- The header row values: the schema's column names, written at
server.py line 86 via `table.schema.names`. -/
def headerCells (schema : List Col) : List Cell :=
  schema.map fun f => some f.1

/-- Models `_line_tokens` (server.py lines 71-79): 0 when no encoder is
supplied, otherwise the token count of the exact formatted line text produced
by csv.writer, including delimiters, quotes and the `\r\n` terminator. -/
def lineTokens (encoder : Option (String → Nat)) (values : List Cell) : Nat :=
  match encoder with
  | none => 0
  | some enc => enc (csvLine values ++ "\r\n")

/-- Models the batch loop of `_write_csv_batches` (server.py lines 83-92) with
`headerWritten` the current value of the `header_written` flag. Returns the
lines appended to the file and the accumulated token total. -/
def writeCsvGo (encoder : Option (String → Nat)) (headerWritten : Bool) :
    List RecordBatch → List String × Nat
  | [] => ([], 0)
  | b :: rest =>
    ((if headerWritten then [] else [csvLine (headerCells b.schema)])
       ++ b.rows.map csvLine ++ (writeCsvGo encoder true rest).1,
     (if headerWritten then 0 else lineTokens encoder (headerCells b.schema))
       + (b.rows.map (lineTokens encoder)).sum + (writeCsvGo encoder true rest).2)

/-- Models `_write_csv_batches` (server.py lines 57-93). `initialHasContent`
models `output_path.exists() and output_path.stat().st_size > 0` at entry; the
`header` argument is accepted but, as in the Python function, never used (the
header written comes from the first batch's schema). -/
def writeCsvBatches (header : List String) (initialHasContent : Bool)
    (encoder : Option (String → Nat)) (batches : List RecordBatch) :
    List String × Nat :=
  writeCsvGo encoder initialHasContent batches

/-- The destination file as `_write_parquet_batches` leaves it: the schema the
writer was created with, the row groups written (one appended table per batch),
and whether the writer handle was closed (footer finalized). -/
structure ParquetFile where
  schema : List Col
  groups : List RecordBatch
  closed : Bool
  deriving DecidableEq

/-- Models the loop of `_write_parquet_batches` once the writer exists
(server.py lines 99-106): each batch's schema is compared with the writer's
schema before its row group is written; a mismatch raises before writing. -/
def writeParquetGo (schema : List Col) (written : List RecordBatch) :
    List RecordBatch → List RecordBatch × Option String
  | [] => (written, none)
  | b :: rest =>
    if b.schema = schema then writeParquetGo schema (written ++ [b]) rest
    else (written, some "Schema mismatch across record batches")

/-- Models `_write_parquet_batches` (server.py lines 96-109): the writer is
created lazily from the first batch's schema; the `finally` block closes the
writer on every exit path, so whenever a writer was created the resulting file
is finalized (`closed = true`). Returns the file (none when no batch arrived,
hence no writer was created) and the raised error message, if any. -/
def writeParquetBatches : List RecordBatch → Option ParquetFile × Option String
  | [] => (none, none)
  | b :: rest =>
    let r := writeParquetGo b.schema [b] rest
    (some ⟨b.schema, r.1, true⟩, r.2)

/-- The exception object raised out of the batch source, as Python's
`RuntimeError(msg)`: it carries only a message string. -/
structure RaisedError where
  message : String
  deriving DecidableEq

/-- Models `_handle_connectorx_error` (server.py lines 114-116): re-raises as
`RuntimeError(error_msg)`; the `vendor` argument is accepted but does not
appear in the raised error. -/
def handleConnectorxError (errorMsg : String) (vendor : String) : RaisedError :=
  ⟨errorMsg⟩

/-- Models the message assembly at server.py lines 205-208 and 224-227: the
captured stderr text is appended on a new line when non-empty. -/
def combineMsg (msg stderrTxt : String) : String :=
  if stderrTxt = "" then msg else msg ++ "\n" ++ stderrTxt

/-- One element produced by the ConnectorX arrow stream: a RecordBatch, a
whole-result Table, or anything else (the unrecognized case of
server.py line 220). -/
inductive StreamElem where
  | rb (b : RecordBatch)
  | tbl (t : Table)
  | other
  deriving DecidableEq

/-- Slice a list into consecutive pieces of `n` elements (the last piece may
be shorter); structural recursion on a fuel bound so the kernel can evaluate
it. The fuel never runs out when it starts at the list's length. -/
def chunkListGo {α : Type} (n : Nat) : Nat → List α → List (List α)
  | _, [] => []
  | 0, _ :: _ => []
  | fuel + 1, x :: xs => (x :: xs).take n :: chunkListGo n fuel ((x :: xs).drop n)

/-- Slice a list into consecutive pieces of at most `n` elements, preserving
order; empty when `n = 0` (pyarrow rejects a non-positive max_chunksize). -/
def chunkList {α : Type} (n : Nat) (l : List α) : List (List α) :=
  if n = 0 then [] else chunkListGo n l.length l

/-- Models `Table.to_batches(max_chunksize=batch_size)` (server.py line 217):
re-chunk the table's rows into batches of at most `batchSize` rows, keeping
the schema and the row order. -/
def tableToBatches (batchSize : Nat) (t : Table) : List RecordBatch :=
  (chunkList batchSize t.rows).map fun rs => ⟨t.schema, rs⟩

/-- Models the for-loop of `_iter_record_batches` (server.py lines 213-222)
over the elements the engine stream yields: RecordBatches pass through, Tables
are re-chunked, and any other element stops iteration with the RuntimeError
message raised at line 220. Returns the batches yielded before stopping and
the raised message, if any. -/
def processElems (batchSize : Nat) : List StreamElem → List RecordBatch × Option String
  | [] => ([], none)
  | StreamElem.rb b :: rest =>
    let r := processElems batchSize rest
    (b :: r.1, r.2)
  | StreamElem.tbl t :: rest =>
    let r := processElems batchSize rest
    (tableToBatches batchSize t ++ r.1, r.2)
  | StreamElem.other :: _ =>
    ([], some "ConnectorX did not return RecordBatch or Table stream")

/-- Models `urllib.parse.urlparse(conn).scheme` for connection tokens of the
form `scheme://rest`: the text before the first colon, empty when the token has
no colon. -/
def schemeOf (conn : String) : String :=
  if conn.contains ':' then conn.takeWhile (fun c => c != ':') else ""

/-- The behaviour of `connectorx.read_sql(..., return_type="arrow_stream")`
for one call, together with the text the two stderr-capture scopes collect:
`openResult` is either the exception message the open call raises, or the
elements the stream yields followed by the exception message iteration raises
after them (if any). -/
structure EngineBehavior where
  openResult : Except String (List StreamElem × Option String)
  stderrOpen : String
  stderrIter : String

/-- Models `_iter_record_batches` (server.py lines 192-228) as a whole run of
the generator: the batches it yields and the error it raises, if any. The
vendor (`db_type`, the lower-cased scheme of the connection token) is computed
exactly as at lines 197-198 and passed to `_handle_connectorx_error`. -/
def iterRecordBatches (conn : String) (sqlText : String) (batchSize : Nat)
    (eng : EngineBehavior) : List RecordBatch × Option RaisedError :=
  let dbType := (schemeOf conn).toLower
  match eng.openResult with
  | Except.error m =>
    ([], some (handleConnectorxError (combineMsg m eng.stderrOpen) dbType))
  | Except.ok (elems, trailing) =>
    let r := processElems batchSize elems
    match r.2 with
    | some m =>
      (r.1, some (handleConnectorxError (combineMsg m eng.stderrIter) dbType))
    | none =>
      match trailing with
      | some m =>
        (r.1, some (handleConnectorxError (combineMsg m eng.stderrIter) dbType))
      | none => (r.1, none)

/-- The `output_format` argument after validation at server.py line 276. -/
inductive OutputFormat where
  | csv
  | parquet
  deriving DecidableEq

/-- One run_sql request after argument extraction: the SQL text read from
`sql_file`, the output format, the batch size, and the server-wide
`csv_token_threshold` before the `max(0, ...)` clamp at line 294. -/
structure Request where
  sqlText : String
  format : OutputFormat
  batchSize : Nat
  rawThreshold : Int
  deriving DecidableEq

/-- The environment of one call: the server-wide connection token, the engine
behaviour of this query, the tokenizer (`len(encoder.encode(line))` as a
function of the line), whether `Path.unlink` succeeds on the destination, and
the message of the OSError it raises when it fails. -/
structure Env where
  conn : String
  engine : EngineBehavior
  tok : String → Nat
  unlinkOk : Bool
  unlinkErrText : String

/-- The destination file's content: a text file is its list of csv.writer
lines (each terminated by `\r\n` on disk, empty list = zero-byte file), a
parquet destination is a `ParquetFile`. -/
inductive FileData where
  | text (lines : List String)
  | pq (f : ParquetFile)
  deriving DecidableEq

/-- Outcome of the try-block of `handle_call_tool`: the destination file state
when the block finished or raised, whether the local variable `out` had been
assigned by then (the except-block cleanup at line 334 checks this), and the
result: the success text returned, or the message of the raised exception. -/
structure TryOut where
  dest : Option FileData
  outAssigned : Bool
  result : Except String String

/-- Models Python `str.strip()`: remove leading and trailing whitespace. -/
def pyStrip (s : String) : String :=
  String.mk (((s.data.dropWhile Char.isWhitespace).reverse.dropWhile Char.isWhitespace).reverse)

/-- Models `threshold = max(0, int(csv_token_threshold))` (server.py
line 294). -/
def thresholdOf (req : Request) : Nat := (max 0 req.rawThreshold).toNat

/-- The success text of server.py line 312, returned when the token total
reaches the threshold. -/
def annotatedOkMsg (total : Nat) : String :=
  "OK " ++ toString total ++ " tokens. Too many tokens may impair processing. Handle appropriately"

/-- The success text of server.py line 314. -/
def plainOkTokensMsg (total : Nat) : String :=
  "OK " ++ toString total ++ " tokens"

/-- Models the writing phase of `handle_call_tool` (server.py lines 291-330),
entered with the destination already deleted. `bs` and `iterErr` are the
batches the lazy source yields and the error it raises after them, if any:
the `next(batches, None)` peek raises `iterErr` immediately when `bs` is
empty, and a writer receives it mid-stream (after writing all of `bs`)
otherwise. -/
def runFormat (req : Request) (env : Env) (bs : List RecordBatch)
    (iterErr : Option RaisedError) : Option FileData × Except String String :=
  match req.format with
  | OutputFormat.csv =>
    match bs with
    | [] =>
      match iterErr with
      | some e => (none, Except.error e.message)
      | none =>
        if 0 < thresholdOf req then (some (FileData.text []), Except.ok "OK 0 tokens")
        else (some (FileData.text []), Except.ok "OK")
    | b :: rest =>
      let header := b.schema.map Prod.fst
      let encoder : Option (String → Nat) :=
        if 0 < thresholdOf req then some env.tok else none
      let w := writeCsvBatches header false encoder (b :: rest)
      match iterErr with
      | some e => (some (FileData.text w.1), Except.error e.message)
      | none =>
        if 0 < thresholdOf req then
          if thresholdOf req ≤ w.2 then
            (some (FileData.text w.1), Except.ok (annotatedOkMsg w.2))
          else (some (FileData.text w.1), Except.ok (plainOkTokensMsg w.2))
        else (some (FileData.text w.1), Except.ok "OK")
  | OutputFormat.parquet =>
    match bs with
    | [] =>
      match iterErr with
      | some e => (none, Except.error e.message)
      | none => (some (FileData.pq ⟨[], [], true⟩), Except.ok "OK")
    | b :: rest =>
      let w := writeParquetBatches (b :: rest)
      match w.2 with
      | some m => (w.1.map FileData.pq, Except.error m)
      | none =>
        match iterErr with
        | some e => (w.1.map FileData.pq, Except.error e.message)
        | none => (w.1.map FileData.pq, Except.ok "OK")

/-- Models the try-block of `handle_call_tool` from the SQL emptiness check
(line 280) through the format dispatch: a blank SQL raises before `out` is
assigned; then `out` is assigned, parent directories are created (a no-op in
this model) and an existing destination is unlinked (line 286, raising when the
unlink fails); then the source is opened lazily and the format branch runs. -/
def tryBody (req : Request) (env : Env) (dest0 : Option FileData) : TryOut :=
  if pyStrip req.sqlText = "" then ⟨dest0, false, Except.error "sql is empty"⟩
  else if dest0.isSome && !env.unlinkOk then ⟨dest0, true, Except.error env.unlinkErrText⟩
  else
    let src := iterRecordBatches env.conn req.sqlText req.batchSize env.engine
    let w := runFormat req env src.1 src.2
    ⟨w.1, true, w.2⟩

/-- Models the except-block cleanup of `handle_call_tool` (lines 331-337):
attempt `out.unlink()` when `out` was assigned and the file exists; any
failure of the deletion is swallowed, leaving the file in place. -/
def cleanupDest (outAssigned : Bool) (unlinkOk : Bool) (d : Option FileData) :
    Option FileData :=
  if outAssigned && unlinkOk then none else d

/-- Models one run_sql tool call after argument-shape validation and a
successful read of the SQL file: returns the final destination file state and
the response text (`"Error: " ++ msg` when the try-block raised). -/
def runSql (req : Request) (env : Env) (dest0 : Option FileData) :
    Option FileData × String :=
  match (tryBody req env dest0).result with
  | Except.ok m => ((tryBody req env dest0).dest, m)
  | Except.error m =>
    (cleanupDest (tryBody req env dest0).outAssigned env.unlinkOk
      (tryBody req env dest0).dest,
     "Error: " ++ m)

/-- Spec-side definition: the total cost as the sum of token counts of every
emitted line, tokenizing the exact formatted line text including the `\r\n`
terminator. -/
def csvTokenTotal (tok : String → Nat) (lines : List String) : Nat :=
  (lines.map fun l => tok (l ++ "\r\n")).sum

/-- Spec-side definition: the lines a delimited-text export of these batches
emits into a fresh destination. -/
def csvOutLines (batches : List RecordBatch) : List String :=
  (writeCsvGo none false batches).1

/-- Whether `pat` occurs as a contiguous subsequence of `l`. -/
def containsSeq (pat : List Char) : List Char → Bool
  | [] => pat.isEmpty
  | c :: rest => pat.isPrefixOf (c :: rest) || containsSeq pat rest

/-- Spec-side definition: the error's text mentions the given vendor name as a
substring. -/
def errorMentions (e : RaisedError) (vendor : String) : Prop :=
  containsSeq vendor.data e.message.data = true

instance (e : RaisedError) (vendor : String) : Decidable (errorMentions e vendor) :=
  inferInstanceAs (Decidable (containsSeq vendor.data e.message.data = true))

/-! Concrete fixtures used by witnesses and counterexamples. -/

/-- Example batch 1: columns (id:int, name:text), 3 rows. -/
def exB1 : RecordBatch :=
  ⟨[("id", "int64"), ("name", "string")],
   [[some "1", some "alpha"], [some "2", some "beta"], [some "3", some "gamma"]]⟩

/-- Example batch 2: same schema, 2 rows. -/
def exB2 : RecordBatch :=
  ⟨[("id", "int64"), ("name", "string")],
   [[some "4", some "delta"], [some "5", some "epsilon"]]⟩

/-- An engine run that yields the two example batches and raises nothing. -/
def exEng : EngineBehavior :=
  ⟨Except.ok ([StreamElem.rb exB1, StreamElem.rb exB2], none), "", ""⟩

/-- Environment for a healthy run: unlink succeeds, every line counts 3
tokens. -/
def exEnv : Env := ⟨"postgresql://h/db", exEng, fun _ => 3, true, "unlink failed"⟩

/-- A csv request with threshold 0. -/
def exReq : Request := ⟨"SELECT 1", OutputFormat.csv, 100000, 0⟩

/-- An engine whose open call raises with message "boom" and no stderr text. -/
def exEngFail : EngineBehavior := ⟨Except.error "boom", "", ""⟩

/-- An engine whose open call raises with message "boom" while the capture
scope collects a native panic line on stderr. -/
def exEngFailS : EngineBehavior := ⟨Except.error "boom", "panic: index out of bounds", ""⟩

/-- Environment around the failing engine. -/
def exEnvFail : Env := ⟨"postgresql://h/db", exEngFail, fun _ => 3, true, "unlink failed"⟩

/-- An engine whose stream yields one good batch and then an unrecognized
element. -/
def exEngOtherMid : EngineBehavior :=
  ⟨Except.ok ([StreamElem.rb exB1, StreamElem.other], none), "", ""⟩

/-- An engine whose stream yields nothing and raises nothing: an empty result
set. -/
def exEngEmpty : EngineBehavior := ⟨Except.ok ([], none), "", ""⟩

/-- Environment around the empty-result engine. -/
def exEnvEmpty : Env := ⟨"postgresql://h/db", exEngEmpty, fun _ => 3, true, "unlink failed"⟩

/-- Example whole-result table of 5 rows, one column. -/
def exTbl : Table :=
  ⟨[("id", "int64")], [[some "1"], [some "2"], [some "3"], [some "4"], [some "5"]]⟩

/-- A parquet batch with schema (a:int). -/
def exPb : RecordBatch := ⟨[("a", "int64")], [[some "7"]]⟩

/-- A parquet batch whose schema differs from `exPb`. -/
def exPbMis : RecordBatch := ⟨[("b", "string")], [[some "x"]]⟩

/-! Helper lemmas. -/

/-- The lines `_write_csv_batches` emits do not depend on the encoder (the
encoder only feeds the token count). -/
theorem writeCsvGo_fst_encoder_irrel (e₁ e₂ : Option (String → Nat)) (hw : Bool)
    (bs : List RecordBatch) : (writeCsvGo e₁ hw bs).1 = (writeCsvGo e₂ hw bs).1 := by
  induction bs generalizing hw with
  | nil => rfl
  | cons b rest ih => simp [writeCsvGo, ih true]

/-- With the header already written, the emitted lines are exactly one line
per row, all batches' rows in order. -/
theorem writeCsvGo_fst_true (e : Option (String → Nat)) (bs : List RecordBatch) :
    (writeCsvGo e true bs).1 = ((bs.map RecordBatch.rows).flatten).map csvLine := by
  induction bs with
  | nil => rfl
  | cons b rest ih => simp [writeCsvGo, ih]

/-- Into a fresh file, the emitted lines are the first batch's header line
followed by one line per row, all batches' rows in order. -/
theorem writeCsvGo_fst_cons (e : Option (String → Nat)) (b : RecordBatch)
    (rest : List RecordBatch) :
    (writeCsvGo e false (b :: rest)).1 =
      csvLine (headerCells b.schema) ::
        (((b :: rest).map RecordBatch.rows).flatten).map csvLine := by
  simp [writeCsvGo, writeCsvGo_fst_true]

/-- The token total `_write_csv_batches` accumulates equals the sum over the
lines it emits of the token count of the line text plus its terminator. -/
theorem writeCsvGo_snd_eq_total (tok : String → Nat) (hw : Bool)
    (bs : List RecordBatch) :
    (writeCsvGo (some tok) hw bs).2 = csvTokenTotal tok (writeCsvGo (some tok) hw bs).1 := by
  induction bs generalizing hw with
  | nil => rfl
  | cons b rest ih =>
    have hfun : ((fun l => tok (l ++ "\r\n")) ∘ csvLine) = lineTokens (some tok) := by
      funext r
      rfl
    simp only [writeCsvGo, csvTokenTotal, List.map_append, List.sum_append, List.map_map,
      hfun, ih true]
    cases hw <;> simp [lineTokens, csvTokenTotal]

/-- Joining the chunks gives back the original list. -/
theorem chunkListGo_join {α : Type} (n : Nat) (hn : 0 < n) :
    ∀ (fuel : Nat) (l : List α), l.length ≤ fuel → (chunkListGo n fuel l).flatten = l := by
  intro fuel
  induction fuel with
  | zero =>
    intro l h
    match l with
    | [] => rfl
    | x :: xs => simp at h
  | succ k ih =>
    intro l h
    match l with
    | [] => rfl
    | x :: xs =>
      have hlen : ((x :: xs).drop n).length ≤ k := by
        simp only [List.length_drop, List.length_cons]
        simp only [List.length_cons] at h
        omega
      simp only [chunkListGo, List.flatten_cons, ih ((x :: xs).drop n) hlen]
      exact List.take_append_drop n (x :: xs)

/-- Joining the chunks of `chunkList` gives back the original list. -/
theorem chunkList_join {α : Type} (n : Nat) (hn : 0 < n) (l : List α) :
    (chunkList n l).flatten = l := by
  unfold chunkList
  rw [if_neg (Nat.pos_iff_ne_zero.mp hn)]
  exact chunkListGo_join n hn l.length l le_rfl

/-- Every chunk has at most `n` elements. -/
theorem chunkListGo_mem_length {α : Type} (n : Nat) :
    ∀ (fuel : Nat) (l : List α) (c : List α), c ∈ chunkListGo n fuel l → c.length ≤ n := by
  intro fuel
  induction fuel with
  | zero =>
    intro l c hc
    match l with
    | [] => simp [chunkListGo] at hc
    | x :: xs => simp [chunkListGo] at hc
  | succ k ih =>
    intro l c hc
    match l with
    | [] => simp [chunkListGo] at hc
    | x :: xs =>
      simp only [chunkListGo, List.mem_cons] at hc
      rcases hc with rfl | hc
      · simp only [List.length_take]
        exact min_le_left n _
      · exact ih _ c hc

/-- Every chunk of `chunkList` has at most `n` elements. -/
theorem chunkList_mem_length {α : Type} (n : Nat) (l : List α) (c : List α)
    (hc : c ∈ chunkList n l) : c.length ≤ n := by
  unfold chunkList at hc
  by_cases hn : n = 0
  · simp [hn] at hc
  · rw [if_neg hn] at hc
    exact chunkListGo_mem_length n l.length l c hc

/-- When every batch matches the writer's schema, all row groups are written
and no error is raised. -/
theorem writeParquetGo_ok (s : List Col) (w : List RecordBatch)
    (l : List RecordBatch) (h : ∀ x ∈ l, x.schema = s) :
    writeParquetGo s w l = (w ++ l, none) := by
  induction l generalizing w with
  | nil => simp [writeParquetGo]
  | cons b rest ih =>
    simp only [writeParquetGo, if_pos (h b (by simp))]
    rw [ih (w ++ [b]) fun x hx => h x (by simp [hx])]
    simp

/-- When some batch mismatches the writer's schema, exactly the row groups
before the first mismatch are written (after the already-written ones) and the
schema-mismatch error is raised. -/
theorem writeParquetGo_mismatch (s : List Col) (w : List RecordBatch)
    (l : List RecordBatch) (h : ∃ x ∈ l, x.schema ≠ s) :
    writeParquetGo s w l =
      (w ++ l.takeWhile (fun x => decide (x.schema = s)),
       some "Schema mismatch across record batches") := by
  induction l generalizing w with
  | nil => simp at h
  | cons b rest ih =>
    by_cases hb : b.schema = s
    · have h' : ∃ x ∈ rest, x.schema ≠ s := by
        rcases h with ⟨x, hx, hne⟩
        rcases List.mem_cons.mp hx with rfl | hx'
        · exact absurd hb hne
        · exact ⟨x, hx', hne⟩
      simp only [writeParquetGo, if_pos hb, ih (w ++ [b]) h']
      simp [List.takeWhile_cons, hb]
    · simp only [writeParquetGo, if_neg hb]
      simp [List.takeWhile_cons, hb]

/-- When the elements before the first unrecognized one are all recognized,
iteration stops there with the RuntimeError message of server.py line 220. -/
theorem processElems_snd_other (n : Nat) (pre rest : List StreamElem)
    (hpre : ∀ e ∈ pre, e ≠ StreamElem.other) :
    (processElems n (pre ++ StreamElem.other :: rest)).2 =
      some "ConnectorX did not return RecordBatch or Table stream" := by
  induction pre with
  | nil => rfl
  | cons e es ih =>
    have hes : ∀ x ∈ es, x ≠ StreamElem.other := fun x hx => hpre x (by simp [hx])
    match e with
    | StreamElem.rb b =>
      simp only [List.cons_append, processElems]
      exact ih hes
    | StreamElem.tbl t =>
      simp only [List.cons_append, processElems]
      exact ih hes
    | StreamElem.other => exact absurd rfl (hpre StreamElem.other (by simp))

/-- Once the shape checks pass and the up-front unlink cannot fail, the
try-block reduces to the format dispatch over what the source yields, with
`out` assigned. -/
theorem tryBody_run (req : Request) (env : Env) (dest0 : Option FileData)
    (hs : pyStrip req.sqlText ≠ "") (hd : dest0 = none ∨ env.unlinkOk = true) :
    tryBody req env dest0 =
      ⟨(runFormat req env
          (iterRecordBatches env.conn req.sqlText req.batchSize env.engine).1
          (iterRecordBatches env.conn req.sqlText req.batchSize env.engine).2).1,
        true,
        (runFormat req env
          (iterRecordBatches env.conn req.sqlText req.batchSize env.engine).1
          (iterRecordBatches env.conn req.sqlText req.batchSize env.engine).2).2⟩ := by
  have hcond : (dest0.isSome && !env.unlinkOk) = false := by
    rcases hd with rfl | h
    · rfl
    · simp [h]
  unfold tryBody
  rw [if_neg hs]
  simp only [hcond, Bool.false_eq_true, if_false]

/-- On a csv run over a non-empty batch list with no mid-stream error, the
destination holds the header line followed by all rows, whatever the
threshold; the run succeeds. -/
theorem runFormat_csv_ok_lines (req : Request) (env : Env) (b : RecordBatch)
    (rest : List RecordBatch) (hf : req.format = OutputFormat.csv) :
    (runFormat req env (b :: rest) none).1 =
      some (FileData.text (csvLine (headerCells b.schema) ::
        (((b :: rest).map RecordBatch.rows).flatten).map csvLine)) ∧
    ∃ m, (runFormat req env (b :: rest) none).2 = Except.ok m := by
  unfold runFormat
  simp only [hf]
  split_ifs with h1 h2 <;>
    exact ⟨by simp [writeCsvBatches, writeCsvGo_fst_cons], _, rfl⟩

/-- With a zero threshold the format dispatch never consults the tokenizer:
its outcome is the same for any two tokenizer functions. -/
theorem runFormat_tok_irrel (req : Request) (h0 : thresholdOf req = 0)
    (conn : String) (eng : EngineBehavior) (t₁ t₂ : String → Nat) (u : Bool)
    (ue : String) (bs : List RecordBatch) (ie : Option RaisedError) :
    runFormat req ⟨conn, eng, t₁, u, ue⟩ bs ie =
      runFormat req ⟨conn, eng, t₂, u, ue⟩ bs ie := by
  unfold runFormat
  rcases hf : req.format <;> simp only [hf, h0] <;>
    cases bs <;> cases ie <;> simp

/-! Claim theorems. -/

/-- C1 (amended): for every failure raised while opening the query or while
iterating the batch stream, `_iter_record_batches` fails with a RuntimeError
whose message equals the original failure text with the captured stderr text
appended on a new line when that text is non-empty; the lower-cased
connection-string scheme is computed and passed to the error handler, but the
raised error consists of that message alone. -/
theorem c1_error_message_shape (conn sql : String) (n : Nat)
    (eng : EngineBehavior) (m : String) :
    (eng.openResult = Except.error m →
      (iterRecordBatches conn sql n eng).2 =
        some ⟨if eng.stderrOpen = "" then m else m ++ "\n" ++ eng.stderrOpen⟩) ∧
    (∀ elems bs, eng.openResult = Except.ok (elems, some m) →
      processElems n elems = (bs, none) →
      (iterRecordBatches conn sql n eng).2 =
        some ⟨if eng.stderrIter = "" then m else m ++ "\n" ++ eng.stderrIter⟩) := by
  constructor
  · intro ho
    simp [iterRecordBatches, ho, handleConnectorxError, combineMsg]
  · intro elems bs ho hp
    simp [iterRecordBatches, ho, hp, handleConnectorxError, combineMsg]

/-- C1 counterexample: the raised error does not carry the vendor name. The
open failure of a postgresql connection and of a mysql connection raise the
very same error object, whose message is the bare failure text; neither
vendor name occurs in it. -/
theorem c1_error_lacks_vendor :
    (iterRecordBatches "postgresql://h/db" "SELECT 1" 10 exEngFail).2 = some ⟨"boom"⟩ ∧
    (iterRecordBatches "mysql://h/db" "SELECT 1" 10 exEngFail).2 = some ⟨"boom"⟩ ∧
    ¬ errorMentions ⟨"boom"⟩ "postgresql" ∧ ¬ errorMentions ⟨"boom"⟩ "mysql" := by
  refine ⟨by decide, by decide, by decide, by decide⟩

/-- C1 witness: a concrete open failure with captured stderr text yields the
combined message. -/
theorem c1_error_message_shape_witness :
    (iterRecordBatches "postgresql://h/db" "SELECT 1" 10 exEngFailS).2 =
      some ⟨"boom" ++ "\n" ++ "panic: index out of bounds"⟩ := by
  have h := (c1_error_message_shape "postgresql://h/db" "SELECT 1" 10 exEngFailS "boom").1 rfl
  rw [h]
  decide

/-- C5 (amended): for every element of the result stream that is neither a
recognized record batch nor a recognized table, iteration fails with a
RuntimeError whose message is "ConnectorX did not return RecordBatch or Table
stream" (with the captured stderr text appended on a new line when
non-empty) — not the message "unexpected result stream element" that the
claim states. -/
theorem c5_unexpected_element_error (conn sql : String) (n : Nat)
    (eng : EngineBehavior) (trailing : Option String) (pre rest : List StreamElem)
    (ho : eng.openResult = Except.ok (pre ++ StreamElem.other :: rest, trailing))
    (hpre : ∀ e ∈ pre, e ≠ StreamElem.other) :
    ∃ bs, iterRecordBatches conn sql n eng =
      (bs, some ⟨if eng.stderrIter = ""
        then "ConnectorX did not return RecordBatch or Table stream"
        else "ConnectorX did not return RecordBatch or Table stream" ++ "\n" ++
          eng.stderrIter⟩) := by
  refine ⟨(processElems n (pre ++ StreamElem.other :: rest)).1, ?_⟩
  have hsnd := processElems_snd_other n pre rest hpre
  simp only [iterRecordBatches, ho]
  rw [show processElems n (pre ++ StreamElem.other :: rest) =
    ((processElems n (pre ++ StreamElem.other :: rest)).1,
     some "ConnectorX did not return RecordBatch or Table stream") from by
      rw [← hsnd]]
  simp [handleConnectorxError, combineMsg]

/-- C5 counterexample: at the concrete stream `[other]` the raised message is
the RuntimeError text of server.py line 220, which is not the message
"unexpected result stream element" the claim states. -/
theorem c5_unexpected_element_message_differs :
    (∃ eng : EngineBehavior,
      (iterRecordBatches "postgresql://h/db" "q" 5 eng).2 =
        some ⟨"ConnectorX did not return RecordBatch or Table stream"⟩) ∧
    "ConnectorX did not return RecordBatch or Table stream" ≠
      "unexpected result stream element" := by
  refine ⟨⟨⟨Except.ok ([StreamElem.other], none), "", ""⟩, by decide⟩, by decide⟩

/-- C5 witness: a concrete stream with one good batch before the unrecognized
element. -/
theorem c5_unexpected_element_error_witness :
    ∃ bs, iterRecordBatches "postgresql://h/db" "q" 5 exEngOtherMid =
      (bs, some ⟨"ConnectorX did not return RecordBatch or Table stream"⟩) := by
  have h := c5_unexpected_element_error "postgresql://h/db" "q" 5 exEngOtherMid
    none [StreamElem.rb exB1] [] rfl (by decide)
  simpa using h

/-- C6 (confirmed): a whole-result table yielded in place of pre-chunked
batches is re-chunked into batches of at most `batch_size` rows each, sharing
the table's schema, whose concatenation in order equals the table's rows (no
row lost, duplicated, or reordered); a stream consisting of that table makes
the source yield exactly those batches. -/
theorem c6_table_rechunk_preserves_rows (n : Nat) (t : Table) (hn : 0 < n) :
    ((tableToBatches n t).map RecordBatch.rows).flatten = t.rows ∧
    (∀ b ∈ tableToBatches n t, b.rows.length ≤ n ∧ b.schema = t.schema) ∧
    (∀ conn sql so si,
      iterRecordBatches conn sql n ⟨Except.ok ([StreamElem.tbl t], none), so, si⟩ =
        (tableToBatches n t, none)) := by
  refine ⟨?_, ?_, ?_⟩
  · rw [tableToBatches, List.map_map]
    have : (RecordBatch.rows ∘ fun rs => (⟨t.schema, rs⟩ : RecordBatch)) = id := by
      funext rs
      rfl
    rw [this, List.map_id]
    exact chunkList_join n hn t.rows
  · intro b hb
    rw [tableToBatches, List.mem_map] at hb
    obtain ⟨rs, hrs, rfl⟩ := hb
    exact ⟨chunkList_mem_length n t.rows rs hrs, rfl⟩
  · intro conn sql so si
    simp [iterRecordBatches, processElems]

/-- C6 witness: the 5-row example table at batch size 2. -/
theorem c6_table_rechunk_preserves_rows_witness :
    ((tableToBatches 2 exTbl).map RecordBatch.rows).flatten = exTbl.rows ∧
    ∀ b ∈ tableToBatches 2 exTbl, b.rows.length ≤ 2 ∧ b.schema = exTbl.schema := by
  have h := c6_table_rechunk_preserves_rows 2 exTbl (by decide)
  exact ⟨h.1, h.2.1⟩

/-- C4 (confirmed): whenever `_write_parquet_batches` creates a writer, the
writer is closed (the footer finalized) on every exit path; and when some
batch after the first mismatches the first batch's schema, the writer fails
with the schema-mismatch error, having written exactly the first batch and
the prefix of the following batches that matches the schema — nothing for the
mismatched batch, and no further batches. -/
theorem c4_parquet_schema_mismatch_aborts_closed (b : RecordBatch)
    (rest : List RecordBatch) :
    (∀ f, (writeParquetBatches (b :: rest)).1 = some f → f.closed = true) ∧
    ((∃ x ∈ rest, x.schema ≠ b.schema) →
      writeParquetBatches (b :: rest) =
        (some ⟨b.schema, b :: rest.takeWhile (fun x => decide (x.schema = b.schema)), true⟩,
         some "Schema mismatch across record batches")) := by
  constructor
  · intro f hf
    simp only [writeParquetBatches, Option.some.injEq] at hf
    rw [← hf]
  · intro h
    simp only [writeParquetBatches, writeParquetGo_mismatch b.schema [b] rest h]
    simp

/-- C2 (confirmed): for every non-empty result set exported as delimited
text, the destination file is the header line — the first batch's schema
column names in order — exactly once, followed by one data line per row, all
batches' rows in their original order; the data line count is the sum of the
row counts across all batches. -/
theorem c2_csv_header_once_rows_preserved (req : Request) (env : Env)
    (dest0 : Option FileData) (b : RecordBatch) (rest : List RecordBatch)
    (hs : pyStrip req.sqlText ≠ "") (hu : env.unlinkOk = true)
    (hf : req.format = OutputFormat.csv)
    (hsrc : iterRecordBatches env.conn req.sqlText req.batchSize env.engine =
      (b :: rest, none)) :
    (runSql req env dest0).1 =
      some (FileData.text (csvLine (headerCells b.schema) ::
        (((b :: rest).map RecordBatch.rows).flatten).map csvLine)) ∧
    ((((b :: rest).map RecordBatch.rows).flatten).map csvLine).length =
      ((b :: rest).map fun x => x.rows.length).sum := by
  obtain ⟨hm1, m, hm2⟩ := runFormat_csv_ok_lines req env b rest hf
  have htb := tryBody_run req env dest0 hs (Or.inr hu)
  rw [hsrc] at htb
  dsimp only at htb
  constructor
  · unfold runSql
    rw [htb]
    dsimp only
    rw [hm2]
    dsimp only
    exact hm1
  · have hcomp : (List.length ∘ List.map csvLine ∘ RecordBatch.rows) =
        fun x : RecordBatch => x.rows.length := by
      funext x
      simp [Function.comp, List.length_map]
    simp only [List.length_map, List.length_flatten, List.map_map, hcomp]
    rfl

/-- C2 witness: two batches of 3 and 2 rows with columns (id, name) produce
the header line "id,name" followed by 5 data lines, 6 lines in all. -/
theorem c2_csv_header_once_rows_preserved_witness :
    (runSql exReq exEnv none).1 =
      some (FileData.text
        ["id,name", "1,alpha", "2,beta", "3,gamma", "4,delta", "5,epsilon"]) ∧
    ["1,alpha", "2,beta", "3,gamma", "4,delta", "5,epsilon"].length = 3 + 2 := by
  have h := (c2_csv_header_once_rows_preserved exReq exEnv none exB1 [exB2]
    (by decide) rfl rfl (by decide)).1
  rw [h]
  exact ⟨by decide, by decide⟩

/-- C3 (confirmed): whenever the batch source or either writer raises, the
orchestrator returns the original failure message (prefixed "Error: ") intact
regardless of whether the cleanup deletion succeeds; when the deletion
succeeds the destination is gone, and when the deletion fails the failure is
swallowed, leaving the file state as the try-block left it while the original
error is still the one returned. -/
theorem c3_cleanup_preserves_original_error (req : Request) (env : Env)
    (dest0 : Option FileData) (m : String)
    (hs : pyStrip req.sqlText ≠ "") (hd : dest0 = none ∨ env.unlinkOk = true)
    (he : (tryBody req env dest0).result = Except.error m) :
    (runSql req env dest0).2 = "Error: " ++ m ∧
    (env.unlinkOk = true → (runSql req env dest0).1 = none) ∧
    (env.unlinkOk = false → (runSql req env dest0).1 = (tryBody req env dest0).dest) := by
  have hout : (tryBody req env dest0).outAssigned = true := by
    rw [tryBody_run req env dest0 hs hd]
  have hrun : runSql req env dest0 =
      (cleanupDest (tryBody req env dest0).outAssigned env.unlinkOk
        (tryBody req env dest0).dest, "Error: " ++ m) := by
    unfold runSql
    rw [he]
  refine ⟨by rw [hrun], ?_, ?_⟩
  · intro hu
    rw [hrun]
    simp [cleanupDest, hout, hu]
  · intro hu
    rw [hrun]
    simp [cleanupDest, hu]

/-- C3 witness: a concrete open failure with the destination initially
absent: the original message is returned and the destination stays absent. -/
theorem c3_cleanup_preserves_original_error_witness :
    (runSql exReq exEnvFail none).2 = "Error: " ++ "boom" ∧
    (runSql exReq exEnvFail none).1 = none := by
  have h := c3_cleanup_preserves_original_error exReq exEnvFail none "boom"
    (by decide) (Or.inl rfl) rfl
  exact ⟨h.1, h.2.1 rfl⟩

/-- C7 (confirmed): an export whose result set is empty leaves, for the
delimited-text format, a destination that exists with zero bytes (no header
line), and for the columnar format a finalized file with an empty schema and
no row groups. -/
theorem c7_empty_result_files (req : Request) (env : Env) (dest0 : Option FileData)
    (hs : pyStrip req.sqlText ≠ "") (hu : env.unlinkOk = true)
    (hsrc : iterRecordBatches env.conn req.sqlText req.batchSize env.engine =
      ([], none)) :
    (req.format = OutputFormat.csv →
      (runSql req env dest0).1 = some (FileData.text [])) ∧
    (req.format = OutputFormat.parquet →
      (runSql req env dest0).1 = some (FileData.pq ⟨[], [], true⟩)) := by
  have htb := tryBody_run req env dest0 hs (Or.inr hu)
  rw [hsrc] at htb
  dsimp only at htb
  constructor
  · intro hf
    have hfmt : runFormat req env [] none = (some (FileData.text []),
        if 0 < thresholdOf req then Except.ok "OK 0 tokens" else Except.ok "OK") := by
      unfold runFormat
      simp only [hf]
      by_cases ht : 0 < thresholdOf req <;> simp [ht]
    rw [hfmt] at htb
    unfold runSql
    rw [htb]
    dsimp only
    by_cases ht : 0 < thresholdOf req <;> simp [ht]
  · intro hf
    have hfmt : runFormat req env [] none =
        (some (FileData.pq ⟨[], [], true⟩), Except.ok "OK") := by
      unfold runFormat
      simp only [hf]
    rw [hfmt] at htb
    unfold runSql
    rw [htb]

/-- C7 witness: a concrete empty result set in both formats. -/
theorem c7_empty_result_files_witness :
    (runSql exReq exEnvEmpty none).1 = some (FileData.text []) ∧
    (runSql ⟨"SELECT 1", OutputFormat.parquet, 100000, 0⟩ exEnvEmpty none).1 =
      some (FileData.pq ⟨[], [], true⟩) := by
  refine ⟨(c7_empty_result_files exReq exEnvEmpty none (by decide) rfl (by decide)).1 rfl, ?_⟩
  exact (c7_empty_result_files ⟨"SELECT 1", OutputFormat.parquet, 100000, 0⟩ exEnvEmpty none
    (by decide) rfl (by decide)).2 rfl

/-- C9 (confirmed): after shape validation, with a working unlink, the whole
outcome of an export — destination bytes and response — does not depend on
what the destination contained before the call: the pre-clear deletes any
existing file, so a second identical run produces byte-identical output with
no stale header or stale rows. -/
theorem c9_export_independent_of_prior_dest (req : Request) (env : Env)
    (d₁ d₂ : Option FileData)
    (hs : pyStrip req.sqlText ≠ "") (hu : env.unlinkOk = true) :
    runSql req env d₁ = runSql req env d₂ := by
  unfold runSql
  rw [tryBody_run req env d₁ hs (Or.inr hu), tryBody_run req env d₂ hs (Or.inr hu)]

/-- C9 witness: a run over a stale destination equals the run over no
destination. -/
theorem c9_export_independent_of_prior_dest_witness :
    runSql exReq exEnv (some (FileData.text ["stale,header", "9,zeta"])) =
      runSql exReq exEnv none := by
  exact c9_export_independent_of_prior_dest exReq exEnv
    (some (FileData.text ["stale,header", "9,zeta"])) none (by decide) rfl

/-- C10 (confirmed): for every request that passes shape validation, when the
query-open call fails the destination does not exist after the call —
whatever it contained before — and the response carries the original open
failure text (with captured stderr appended when non-empty). -/
theorem c10_failed_export_leaves_no_dest (req : Request) (env : Env)
    (dest0 : Option FileData) (m : String)
    (hs : pyStrip req.sqlText ≠ "") (hu : env.unlinkOk = true)
    (ho : env.engine.openResult = Except.error m) :
    (runSql req env dest0).1 = none ∧
    (runSql req env dest0).2 = "Error: " ++
      (if env.engine.stderrOpen = "" then m else m ++ "\n" ++ env.engine.stderrOpen) := by
  have hsrc : iterRecordBatches env.conn req.sqlText req.batchSize env.engine =
      ([], some ⟨combineMsg m env.engine.stderrOpen⟩) := by
    simp [iterRecordBatches, ho, handleConnectorxError]
  have hfmt : runFormat req env [] (some ⟨combineMsg m env.engine.stderrOpen⟩) =
      (none, Except.error (combineMsg m env.engine.stderrOpen)) := by
    unfold runFormat
    rcases hf : req.format <;> simp [hf]
  have htb := tryBody_run req env dest0 hs (Or.inr hu)
  rw [hsrc] at htb
  dsimp only at htb
  rw [hfmt] at htb
  dsimp only at htb
  unfold runSql
  rw [htb]
  dsimp only
  refine ⟨by simp [cleanupDest, hu], ?_⟩
  simp [combineMsg]

/-- C10 witness: a destination that existed before the call is gone after the
failed export. -/
theorem c10_failed_export_leaves_no_dest_witness :
    (runSql exReq exEnvFail (some (FileData.text ["old,content"]))).1 = none ∧
    (runSql exReq exEnvFail (some (FileData.text ["old,content"]))).2 =
      "Error: " ++ "boom" := by
  have h := c10_failed_export_leaves_no_dest exReq exEnvFail
    (some (FileData.text ["old,content"])) "boom" (by decide) rfl rfl
  exact ⟨h.1, h.2.trans (by decide)⟩

/-- C8 (confirmed): when the cost threshold is 0, no cost computation is
performed — the outcome is identical for any two tokenizer functions, so the
tokenizer is never consulted — and a successful csv export returns the plain
success "OK"; when the threshold is positive, the reported total is the sum
of token counts of every emitted line (header and data rows), tokenizing the
exact formatted line text, and a total at or above the threshold is reported
inside a success message (the annotated "OK ... tokens ..." text), never as
an error. -/
theorem c8_cost_threshold_behavior :
    (∀ (req : Request) (conn : String) (eng : EngineBehavior)
        (t₁ t₂ : String → Nat) (u : Bool) (ue : String) (d : Option FileData),
      thresholdOf req = 0 →
      runSql req ⟨conn, eng, t₁, u, ue⟩ d = runSql req ⟨conn, eng, t₂, u, ue⟩ d) ∧
    (∀ (req : Request) (env : Env) (d : Option FileData) (bs : List RecordBatch),
      thresholdOf req = 0 → req.format = OutputFormat.csv →
      pyStrip req.sqlText ≠ "" → env.unlinkOk = true →
      iterRecordBatches env.conn req.sqlText req.batchSize env.engine = (bs, none) →
      (runSql req env d).2 = "OK") ∧
    (∀ (req : Request) (env : Env) (d : Option FileData) (b : RecordBatch)
        (rest : List RecordBatch),
      0 < thresholdOf req → req.format = OutputFormat.csv →
      pyStrip req.sqlText ≠ "" → env.unlinkOk = true →
      iterRecordBatches env.conn req.sqlText req.batchSize env.engine = (b :: rest, none) →
      (runSql req env d).2 =
        if thresholdOf req ≤ csvTokenTotal env.tok (csvOutLines (b :: rest))
        then annotatedOkMsg (csvTokenTotal env.tok (csvOutLines (b :: rest)))
        else plainOkTokensMsg (csvTokenTotal env.tok (csvOutLines (b :: rest)))) := by
  refine ⟨?_, ?_, ?_⟩
  · intro req conn eng t₁ t₂ u ue d h0
    have htb : tryBody req ⟨conn, eng, t₁, u, ue⟩ d =
        tryBody req ⟨conn, eng, t₂, u, ue⟩ d := by
      unfold tryBody
      by_cases hs : pyStrip req.sqlText = ""
      · rw [if_pos hs, if_pos hs]
      · rw [if_neg hs, if_neg hs]
        dsimp only
        rw [runFormat_tok_irrel req h0 conn eng t₁ t₂ u ue]
    unfold runSql
    rw [htb]
  · intro req env d bs h0 hf hs hu hsrc
    have hfmt : (runFormat req env bs none).2 = Except.ok "OK" := by
      unfold runFormat
      simp only [hf, h0]
      cases bs <;> simp
    have htb := tryBody_run req env d hs (Or.inr hu)
    rw [hsrc] at htb
    dsimp only at htb
    unfold runSql
    rw [htb]
    dsimp only
    rw [hfmt]
  · intro req env d b rest ht hf hs hu hsrc
    have hw2 : (writeCsvBatches (b.schema.map Prod.fst) false (some env.tok)
        (b :: rest)).2 = csvTokenTotal env.tok (csvOutLines (b :: rest)) := by
      unfold writeCsvBatches csvOutLines
      rw [writeCsvGo_snd_eq_total env.tok false (b :: rest),
        writeCsvGo_fst_encoder_irrel (some env.tok) none false (b :: rest)]
    have hfmt : runFormat req env (b :: rest) none =
        (some (FileData.text (writeCsvBatches (b.schema.map Prod.fst) false
          (some env.tok) (b :: rest)).1),
         if thresholdOf req ≤ csvTokenTotal env.tok (csvOutLines (b :: rest))
           then Except.ok (annotatedOkMsg (csvTokenTotal env.tok (csvOutLines (b :: rest))))
           else Except.ok (plainOkTokensMsg (csvTokenTotal env.tok (csvOutLines (b :: rest))))) := by
      unfold runFormat
      simp only [hf]
      simp only [ht, if_true]
      rw [hw2]
      by_cases hcmp : thresholdOf req ≤ csvTokenTotal env.tok (csvOutLines (b :: rest)) <;>
        simp [hcmp]
    have htb := tryBody_run req env d hs (Or.inr hu)
    rw [hsrc] at htb
    dsimp only at htb
    rw [hfmt] at htb
    dsimp only at htb
    unfold runSql
    rw [htb]
    dsimp only
    by_cases hcmp : thresholdOf req ≤ csvTokenTotal env.tok (csvOutLines (b :: rest))
    · rw [if_pos hcmp, if_pos hcmp]
    · rw [if_neg hcmp, if_neg hcmp]

/-- C8 witness: with threshold 10 and every line counting 3 tokens, the
6-line example export reports 18 tokens inside the annotated success text;
with threshold 0 the same export returns the plain "OK". -/
theorem c8_cost_threshold_behavior_witness :
    (runSql ⟨"SELECT 1", OutputFormat.csv, 100000, 10⟩ exEnv none).2 =
      "OK 18 tokens. Too many tokens may impair processing. Handle appropriately" ∧
    (runSql exReq exEnv none).2 = "OK" := by
  have h3 := c8_cost_threshold_behavior.2.2 ⟨"SELECT 1", OutputFormat.csv, 100000, 10⟩
    exEnv none exB1 [exB2] (by decide) rfl (by decide) rfl (by decide)
  have h2 := c8_cost_threshold_behavior.2.1 exReq exEnv none [exB1, exB2]
    (by decide) rfl (by decide) rfl (by decide)
  exact ⟨h3.trans (by decide), h2⟩

/-- C4 witness: a concrete mismatch at the second batch. -/
theorem c4_parquet_schema_mismatch_aborts_closed_witness :
    writeParquetBatches [exPb, exPbMis] =
      (some ⟨[("a", "int64")], [exPb], true⟩,
       some "Schema mismatch across record batches") := by
  have h := (c4_parquet_schema_mismatch_aborts_closed exPb [exPbMis]).2
    ⟨exPbMis, by simp, by decide⟩
  rw [h]
  decide

end RunSqlCx
